import Mathlib

/-!
# Verification of the deriv-bot symbol engine

A shallow embedding of the grid-trading symbol engine
(`src/core/engine/symbol_engine.py`) and its persistence layer
(`src/core/persistence/repository.py`).  Prices are modelled as rationals,
machine dictionaries as association lists, and the MetaTrader broker as an
explicit oracle record.  Each definition is translated directly from the
Python source; source locations are given in the doc comments.
-/

namespace DerivBot

/-- Trade direction, the `"buy"` / `"sell"` strings of the source. -/
inductive Direction where
  | buy
  | sell
deriving DecidableEq, Repr

/-- Position leg tag, the `'B'` / `'S'` characters stored in `ticket_map`. -/
inductive Leg where
  | B
  | S
deriving DecidableEq, Repr

/-- `leg = 'B' if direction == 'buy' else 'S'` (symbol_engine.py:4218). -/
def Direction.toLeg : Direction → Leg
  | .buy => .B
  | .sell => .S

/-- The `"BULLISH"` / `"BEARISH"` strings used by the per-group tracking. -/
inductive Trend where
  | bullish
  | bearish
deriving DecidableEq, Repr

/-- Engine phases (symbol_engine.py:341-344). -/
inductive Phase where
  | INIT
  | WAITING_CENTER
  | EXPANDING
  | RUNNING
deriving DecidableEq, Repr

/-- `GridPair` dataclass (symbol_engine.py:46-96).  Fields irrelevant to the
claims (`first_fill_direction`, `position_timestamps`) are omitted; all fields
read or written by the verified operations are kept with their defaults. -/
structure GridPair where
  index : Int
  buy_price : ℚ := 0
  sell_price : ℚ := 0
  buy_ticket : Nat := 0
  sell_ticket : Nat := 0
  buy_filled : Bool := false
  sell_filled : Bool := false
  buy_pending_ticket : Int := 0
  sell_pending_ticket : Int := 0
  trade_count : Nat := 0
  next_action : Direction := .buy
  buy_in_zone : Bool := false
  sell_in_zone : Bool := false
  is_reopened : Bool := false
  pair_tp : ℚ := 0
  pair_sl : ℚ := 0
  hedge_ticket : Nat := 0
  hedge_direction : Option Direction := none
  hedge_active : Bool := false
  group_id : Int := 0
  locked_buy_entry : ℚ := 0
  locked_sell_entry : ℚ := 0
  tp_blocked : Bool := false
deriving DecidableEq, Repr

/-- `GridPair.advance_toggle` (symbol_engine.py:117-120). -/
def GridPair.advance_toggle (p : GridPair) : GridPair :=
  { p with trade_count := p.trade_count + 1,
           next_action := if p.next_action = .buy then .sell else .buy }

/-- Mark the buy leg filled with its ticket and advance the toggle — the
`pair.buy_filled = True; pair.buy_ticket = ticket; pair.advance_toggle()`
sequence the engine runs after every successful buy. -/
def GridPair.fill_buy (p : GridPair) (ticket : Nat) : GridPair :=
  ({ p with buy_filled := true, buy_ticket := ticket }).advance_toggle

/-- Mark the sell leg filled with its ticket and advance the toggle. -/
def GridPair.fill_sell (p : GridPair) (ticket : Nat) : GridPair :=
  ({ p with sell_filled := true, sell_ticket := ticket }).advance_toggle

/-- `GridPair.get_next_lot` (symbol_engine.py:98-115): sequential lot sizing,
`none` once `trade_count` reaches the length of the lot ladder. -/
def GridPair.get_next_lot (p : GridPair) (lot_sizes : List ℚ) : Option ℚ :=
  if lot_sizes.isEmpty then some (1 / 100)
  else if lot_sizes.length ≤ p.trade_count then none
  else lot_sizes.get? p.trade_count

/-- One `ticket_map` entry: `(pair_index, leg, entry_price, tp_price, sl_price)`
(symbol_engine.py:432-433, written at line 4358). -/
structure TicketInfo where
  pair_idx : Int
  leg : Leg
  entry_price : ℚ
  tp_price : ℚ
  sl_price : ℚ
deriving DecidableEq, Repr

/-- One `ticket_touch_flags` entry (symbol_engine.py:435-437). -/
structure TouchFlags where
  tp_touched : Bool := false
  sl_touched : Bool := false
deriving DecidableEq, Repr

/-! ## Association lists standing in for Python dictionaries -/

/-- Dictionary assignment `d[k] = v` on an association list. -/
def assocSet {α β : Type} [DecidableEq α] : List (α × β) → α → β → List (α × β)
  | [], k, v => [(k, v)]
  | (k₀, v₀) :: rest, k, v =>
      if k₀ = k then (k, v) :: rest else (k₀, v₀) :: assocSet rest k v

/-- Dictionary deletion `d.pop(k, None)` on an association list. -/
def assocErase {α β : Type} [DecidableEq α] : List (α × β) → α → List (α × β)
  | [], _ => []
  | (k₀, v₀) :: rest, k =>
      if k₀ = k then rest else (k₀, v₀) :: assocErase rest k

theorem lookup_assocSet_self {α β : Type} [DecidableEq α] [BEq α] [LawfulBEq α]
    (l : List (α × β)) (k : α) (v : β) :
    List.lookup k (assocSet l k v) = some v := by
  induction l with
  | nil => simp [assocSet, List.lookup]
  | cons hd tl ih =>
    obtain ⟨k₀, v₀⟩ := hd
    by_cases h : k₀ = k
    · simp [assocSet, h, List.lookup]
    · have hbne : (k == k₀) = false := beq_eq_false_iff_ne.mpr (Ne.symm h)
      simp [assocSet, h, List.lookup, hbne, ih]

theorem lookup_assocSet_ne {α β : Type} [DecidableEq α] [BEq α] [LawfulBEq α]
    (l : List (α × β)) (k j : α) (v : β) (hj : j ≠ k) :
    List.lookup j (assocSet l k v) = List.lookup j l := by
  have hbne : (j == k) = false := beq_eq_false_iff_ne.mpr hj
  induction l with
  | nil => simp [assocSet, List.lookup, hbne]
  | cons hd tl ih =>
    obtain ⟨k₀, v₀⟩ := hd
    by_cases h : k₀ = k
    · subst h
      simp [assocSet, List.lookup, hbne]
    · by_cases h' : j = k₀
      · subst h'
        simp [assocSet, h, List.lookup]
      · have hbne' : (j == k₀) = false := beq_eq_false_iff_ne.mpr h'
        simp [assocSet, h, List.lookup, hbne', ih]

theorem lookup_assocErase_ne {α β : Type} [DecidableEq α] [BEq α] [LawfulBEq α]
    (l : List (α × β)) (k j : α) (hj : j ≠ k) :
    List.lookup j (assocErase l k) = List.lookup j l := by
  have hbne : (j == k) = false := beq_eq_false_iff_ne.mpr hj
  induction l with
  | nil => simp [assocErase]
  | cons hd tl ih =>
    obtain ⟨k₀, v₀⟩ := hd
    by_cases h : k₀ = k
    · subst h
      simp [assocErase, List.lookup, hbne]
    · by_cases h' : j = k₀
      · subst h'
        simp [assocErase, h, List.lookup]
      · have hbne' : (j == k₀) = false := beq_eq_false_iff_ne.mpr h'
        simp [assocErase, h, List.lookup, hbne', ih]

/-! ## Grid geometry -/

/-- `SymbolEngine.GROUP_OFFSET` (symbol_engine.py:402). -/
def GROUP_OFFSET : Int := 100

/-- `SymbolEngine._calculate_pair_index_from_price` (symbol_engine.py:521-556).
When `center_price == 0.0` the method returns index `0` for every price and
both directions; otherwise it rounds `(price − anchor)/spread`, adding `1` for
the sell direction.  Python's `round` uses half-to-even tie-breaking while
Mathlib's `round` rounds half up; no verified property evaluates the function
at a half-integer argument, so the two agree everywhere they are used. -/
def calculate_pair_index_from_price (center_price spread : ℚ)
    (price : ℚ) (direction : Direction) : Int :=
  if center_price = 0 then 0
  else
    match direction with
    | .buy => round ((price - center_price) / spread)
    | .sell => round ((price - center_price) / spread) + 1

/-- Grid buy price for index `n`: `B(n) = center_price + n·spread`
(comment block symbol_engine.py:531-533 and pair construction at 1202-1205). -/
def pair_buy_price (anchor spread : ℚ) (n : Int) : ℚ :=
  anchor + n * spread

/-- Grid sell price for index `n`: `S(n) = B(n) − spread`
(symbol_engine.py:533, 845, 868). -/
def pair_sell_price (anchor spread : ℚ) (n : Int) : ℚ :=
  pair_buy_price anchor spread n - spread

/-! ## Group helpers -/

/-- `SymbolEngine._get_group_from_pair` (symbol_engine.py:655-670).  The stored
`group_id` wins when the pair exists; the index-based fallback
`pair_idx // GROUP_OFFSET` applies only to `pair_idx >= 0`; a missing negative
index falls off the end of the Python function and yields `None`. -/
def get_group_from_pair (pairs : List (Int × GridPair)) (pair_idx : Int) :
    Option Int :=
  match List.lookup pair_idx pairs with
  | some pair => some pair.group_id
  | none => if 0 ≤ pair_idx then some (pair_idx / GROUP_OFFSET) else none

/-- Does some open ticket of `openTickets` map (via `ticket_map`) to leg `l`
of pair `p`?  Models the `pair_legs` accumulation of
`_count_completed_pairs_for_group` (symbol_engine.py:759-767). -/
def hasOpenLeg (tm : List (Nat × TicketInfo)) (openTickets : List Nat)
    (p : Int) (l : Leg) : Bool :=
  openTickets.any fun t =>
    match List.lookup t tm with
    | some info => decide (info.pair_idx = p) && decide (info.leg = l)
    | none => false

/-- The distinct pair indices carrying at least one open, tracked leg. -/
def openPairIndices (tm : List (Nat × TicketInfo)) (openTickets : List Nat) :
    List Int :=
  (openTickets.filterMap fun t => (List.lookup t tm).map TicketInfo.pair_idx).dedup

/-- `SymbolEngine._count_completed_pairs_for_group` (symbol_engine.py:753-778):
count pairs having both legs among the broker's open positions whose group
(per `_get_group_from_pair`) is `group_id`.  The high-water update the Python
method performs as a side effect is modelled separately by
`update_c_highwater`. -/
def count_completed_pairs_for_group (pairs : List (Int × GridPair))
    (tm : List (Nat × TicketInfo)) (openTickets : List Nat) (group_id : Int) :
    Nat :=
  ((openPairIndices tm openTickets).filter fun p =>
      hasOpenLeg tm openTickets p .B && hasOpenLeg tm openTickets p .S &&
      decide (get_group_from_pair pairs p = some group_id)).length

/-- `SymbolEngine._update_c_highwater` (symbol_engine.py:739-747). -/
def update_c_highwater (hw : List (Int × Nat)) (group_id : Int)
    (current_c : Nat) : List (Int × Nat) :=
  let prev := (List.lookup group_id hw).getD 0
  if prev < current_c then assocSet hw group_id current_c else hw

/-- `SymbolEngine._can_place_completing_leg` (symbol_engine.py:599-645).
The `leg` argument is only used by the source for logging. -/
def can_place_completing_leg (pairs : List (Int × GridPair))
    (tm : List (Nat × TicketInfo)) (openTickets : List Nat)
    (max_positions : Nat) (index : Int) (_leg : Leg) : Bool :=
  match List.lookup index pairs with
  | none => true
  | some pair =>
    if 3 ≤ count_completed_pairs_for_group pairs tm openTickets pair.group_id then
      if max_positions ≤ pair.trade_count + 1 then true
      else if pair.buy_filled ≠ pair.sell_filled then false
      else true
    else true

/-! ## Engine state, configuration and the broker oracle -/

/-- Per-symbol configuration values read from `self.config`
(symbol_engine.py:490-515, 4246-4247). -/
structure Config where
  spread : ℚ := 20
  tolerance : ℚ := 5
  max_positions : Nat := 5
  lot_sizes : List ℚ := [1 / 100]
  hedge_enabled : Bool := true
  buy_stop_tp : ℚ := 20
  buy_stop_sl : ℚ := 20
  sell_stop_tp : ℚ := 20
  sell_stop_sl : ℚ := 20
deriving DecidableEq, Repr

/-- A quote from `mt5.symbol_info_tick`. -/
structure Tick where
  ask : ℚ
  bid : ℚ
deriving DecidableEq, Repr

/-- The fields of `mt5.symbol_info` used by the order path
(symbol_engine.py:4261-4265). -/
structure SymbolInfo where
  point : ℚ
  trade_stops_level : ℚ
deriving DecidableEq, Repr

/-- The MetaTrader 5 broker as an oracle: the current tick, the symbol info,
the set of open position tickets (`mt5.positions_get`), and the outcome of the
n-th `mt5.order_send` of the modelled operation.  `send n = some t` means the
n-th order is accepted and resolves (via the position scan at
symbol_engine.py:4340-4355) to position ticket `t`; `none` means the send
fails. -/
structure Broker where
  tick : Option Tick
  symbol_info : Option SymbolInfo
  positions : List Nat
  send : Nat → Option Nat

/-- A record of one market order submitted to the broker. -/
structure OrderRecord where
  direction : Direction
  index : Int
  volume : ℚ
  price : ℚ
  tp : ℚ
  sl : ℚ
deriving DecidableEq, Repr

/-- `expansion_type` strings passed to `group_logger.log_expansion`. -/
inductive ExpansionKind where
  | stepExpand
  | tpExpand
deriving DecidableEq, Repr

/-- Structured events emitted to the `GroupLogger`. -/
inductive GroupEvent where
  | init (group_id : Int) (anchor : ℚ) (is_bullish_source : Bool)
  | expansion (group_id : Int) (kind : ExpansionKind) (pair_idx : Int)
      (is_atomic : Bool) (c_count : Nat)
  | non_atomic_complete (group_id : Int) (pair_idx : Int) (leg : Leg)
  | tp_hit (group_id : Option Int) (pair_idx : Int) (leg : Leg) (price : ℚ)
      (was_incomplete : Bool)
  | sl_hit (group_id : Option Int) (pair_idx : Int) (leg : Leg) (price : ℚ)
deriving DecidableEq, Repr

/-- The mutable state of one `SymbolEngine` (symbol_engine.py:348-479),
restricted to the fields the verified operations read or write.  `orders_sent`
and `closed_tickets` record the broker calls made so far and `send_count`
numbers the `order_send` calls for the `Broker.send` oracle. -/
structure EngineState where
  pairs : List (Int × GridPair) := []
  ticket_map : List (Nat × TicketInfo) := []
  ticket_touch_flags : List (Nat × TouchFlags) := []
  phase : Phase := .INIT
  iteration : Nat := 1
  current_group : Int := 0
  cycle_id : Int := 0
  anchor_price : ℚ := 0
  center_price : ℚ := 0
  graceful_stop : Bool := false
  group_anchors : List (Int × ℚ) := []
  group_c_highwater : List (Int × Nat) := []
  group_direction : Option Trend := none
  group_init_source : List (Int × Trend) := []
  group_pending_retracement : List (Int × Trend) := []
  group_retracement_anchor : List (Int × ℚ) := []
  group_retracement_levels_fired : List (Int × List Nat) := []
  step1_bullish_triggered : Bool := false
  step1_bearish_triggered : Bool := false
  step2_bullish_triggered : Bool := false
  step2_bearish_triggered : Bool := false
  step1_triggered : Bool := false
  step2_triggered : Bool := false
  pairs_tp_expanded : List Int := []
  incomplete_pairs_init_triggered : List Int := []
  send_count : Nat := 0
  orders_sent : List OrderRecord := []
  closed_tickets : List Nat := []
  group_events : List GroupEvent := []
deriving DecidableEq, Repr

/-- `SymbolEngine._get_c_highwater` (symbol_engine.py:749-751): defaultdict
read, `0` when the group is absent. -/
def get_c_highwater (st : EngineState) (group_id : Int) : Nat :=
  (List.lookup group_id st.group_c_highwater).getD 0

/-- `SymbolEngine._get_lot_size` (symbol_engine.py:3637-3654). -/
def get_lot_size (cfg : Config) (pairs : List (Int × GridPair)) (index : Int) :
    Option ℚ :=
  match List.lookup index pairs with
  | none => some (cfg.lot_sizes.headD (1 / 100))
  | some pair => pair.get_next_lot cfg.lot_sizes

/-- Result of `SymbolEngine._execute_market_order`: the returned position
ticket (`0` meaning refused or failed) and the state after the call. -/
structure OrderResult where
  ticket : Nat
  state : EngineState
deriving Repr

/-- TP/SL levels from the execution price and the configured pip distances,
including the broker stops-level clamp (symbol_engine.py:4243-4301). -/
def compute_tp_sl (cfg : Config) (si : Option SymbolInfo) (tick : Tick)
    (direction : Direction) (exec_price : ℚ) : ℚ × ℚ :=
  let tp_pips := if direction = .buy then cfg.buy_stop_tp else cfg.sell_stop_tp
  let sl_pips := if direction = .buy then cfg.buy_stop_sl else cfg.sell_stop_sl
  let tp := if direction = .buy then exec_price + tp_pips else exec_price - tp_pips
  let sl := if direction = .buy then exec_price - sl_pips else exec_price + sl_pips
  match si with
  | none => (tp, sl)
  | some info =>
    let min_dist := max info.trade_stops_level 10 * info.point
    if direction = .buy then
      let check_price := tick.bid
      let sl := if check_price - min_dist < sl then check_price - min_dist else sl
      let tp := if tp < check_price + min_dist then check_price + min_dist else tp
      (tp, sl)
    else
      let check_price := tick.ask
      let sl := if sl < check_price + min_dist then check_price + min_dist else sl
      let tp := if check_price - min_dist < tp then check_price - min_dist else tp
      (tp, sl)

/-- The high-water side effect of the gate's
`_count_completed_pairs_for_group` call (symbol_engine.py:775-776): the live
count is folded into the group's high-water mark; nothing else changes. -/
def gate_highwater_bump (brk : Broker) (st : EngineState) (index : Int) :
    EngineState :=
  match List.lookup index st.pairs with
  | none => st
  | some pair =>
    let C := count_completed_pairs_for_group st.pairs st.ticket_map
      brk.positions pair.group_id
    { st with group_c_highwater :=
        update_c_highwater st.group_c_highwater pair.group_id C }

theorem gate_highwater_bump_pairs (brk : Broker) (st : EngineState) (i : Int) :
    (gate_highwater_bump brk st i).pairs = st.pairs := by
  unfold gate_highwater_bump
  split <;> rfl

theorem gate_highwater_bump_ticket_map (brk : Broker) (st : EngineState)
    (i : Int) : (gate_highwater_bump brk st i).ticket_map = st.ticket_map := by
  unfold gate_highwater_bump
  split <;> rfl

theorem gate_highwater_bump_orders_sent (brk : Broker) (st : EngineState)
    (i : Int) : (gate_highwater_bump brk st i).orders_sent = st.orders_sent := by
  unfold gate_highwater_bump
  split <;> rfl

theorem gate_highwater_bump_send_count (brk : Broker) (st : EngineState)
    (i : Int) : (gate_highwater_bump brk st i).send_count = st.send_count := by
  unfold gate_highwater_bump
  split <;> rfl

theorem gate_highwater_bump_group_events (brk : Broker) (st : EngineState)
    (i : Int) : (gate_highwater_bump brk st i).group_events = st.group_events := by
  unfold gate_highwater_bump
  split <;> rfl

theorem gate_highwater_bump_current_group (brk : Broker) (st : EngineState)
    (i : Int) : (gate_highwater_bump brk st i).current_group = st.current_group := by
  unfold gate_highwater_bump
  split <;> rfl

/-- `SymbolEngine._execute_market_order` (symbol_engine.py:4200-4399).
The steps, in source order: the completion-cap gate (`return 0` when
refused, before any broker call), the tick fetch, lot sizing (`return 0`
when the pair is at `max_positions`), TP/SL computation with the
stops-level clamp, `mt5.order_send` (recorded in `orders_sent`, outcome
from `Broker.send`), registration of the resolved position ticket in
`ticket_map`, and the one-time locking of `locked_buy_entry` /
`locked_sell_entry` on the pair.  The high-water side effect of the gate's
`_count_completed_pairs_for_group` call is applied first. -/
def execute_market_order (cfg : Config) (brk : Broker) (st : EngineState)
    (direction : Direction) (_price : ℚ) (index : Int) : OrderResult :=
  let leg := direction.toLeg
  let st := gate_highwater_bump brk st index
  if ¬ can_place_completing_leg st.pairs st.ticket_map brk.positions
      cfg.max_positions index leg then
    ⟨0, st⟩
  else
    match brk.tick with
    | none => ⟨0, st⟩
    | some tick =>
      let exec_price := if direction = .buy then tick.ask else tick.bid
      match get_lot_size cfg st.pairs index with
      | none => ⟨0, st⟩
      | some volume =>
        let (tp, sl) := compute_tp_sl cfg brk.symbol_info tick direction exec_price
        let send_idx := st.send_count
        let st := { st with
          send_count := send_idx + 1,
          orders_sent := st.orders_sent ++
            [⟨direction, index, volume, exec_price, tp, sl⟩] }
        match brk.send send_idx with
        | none => ⟨0, st⟩
        | some position_ticket =>
          let tm := assocSet st.ticket_map position_ticket
            ⟨index, leg, exec_price, tp, sl⟩
          let st := { st with ticket_map := tm }
          let st :=
            match List.lookup index st.pairs with
            | none => st
            | some pair =>
              if direction = .buy then
                if pair.locked_buy_entry = 0 then
                  let pair' := { pair with locked_buy_entry := exec_price }
                  { st with pairs := assocSet st.pairs index pair' }
                else st
              else
                if pair.locked_sell_entry = 0 then
                  let pair' := { pair with locked_sell_entry := exec_price }
                  { st with pairs := assocSet st.pairs index pair' }
                else st
          ⟨position_ticket, st⟩

/-! ## Grid expansion -/

/-- `SymbolEngine._expand_bullish` (symbol_engine.py:1132-1237): complete pair
`n` with a buy, then — unless the pre-step high-water `C` was `2`, in which
case only a non-atomic `STEP_EXPAND` event is logged — seed pair `n+1` with a
sell one spread above.  The function never reads `tp_blocked`. -/
def expand_bullish (cfg : Config) (brk : Broker) (st : EngineState)
    (pair_to_complete : Int) : EngineState :=
  let C := get_c_highwater st st.current_group
  if 3 ≤ C then st
  else if List.lookup st.current_group st.group_init_source = some Trend.bullish ∧
      List.lookup st.current_group st.group_pending_retracement ≠ some Trend.bullish then
    st
  else
    match brk.tick with
    | none => st
    | some _tick =>
      match List.lookup pair_to_complete st.pairs with
      | none => st
      | some pair =>
        let step :=
          if pair.buy_filled then some (st, pair)
          else
            let r := execute_market_order cfg brk st .buy pair.buy_price pair_to_complete
            if r.ticket = 0 then none
            else
              let pair' := pair.fill_buy r.ticket
              some ({ r.state with pairs := assocSet r.state.pairs pair_to_complete pair' },
                pair')
        match step with
        | none => (execute_market_order cfg brk st .buy pair.buy_price pair_to_complete).state
        | some (st, pair) =>
          if C = 2 then
            { st with group_events := st.group_events ++
                [.expansion st.current_group .stepExpand pair_to_complete false 3] }
          else
            let new_pair_idx := pair_to_complete + 1
            if (List.lookup new_pair_idx st.pairs).isSome then st
            else
              let new_sell_price := pair.buy_price
              let new_buy_price := new_sell_price + cfg.spread
              let new_pair : GridPair :=
                { index := new_pair_idx, buy_price := new_buy_price,
                  sell_price := new_sell_price, next_action := .sell,
                  group_id := st.current_group }
              let st := { st with pairs := assocSet st.pairs new_pair_idx new_pair }
              let r := execute_market_order cfg brk st .sell new_pair.sell_price new_pair_idx
              if r.ticket = 0 then r.state
              else
                let np := new_pair.fill_sell r.ticket
                { r.state with
                    pairs := assocSet r.state.pairs new_pair_idx np,
                    group_events := r.state.group_events ++
                      [.expansion st.current_group .stepExpand pair_to_complete true (C + 1)] }

/-- `SymbolEngine._expand_bearish` (symbol_engine.py:1239-1341): mirror of
`_expand_bullish`, completing pair `n` with a sell and seeding pair `n−1`. -/
def expand_bearish (cfg : Config) (brk : Broker) (st : EngineState)
    (pair_to_complete : Int) : EngineState :=
  let C := get_c_highwater st st.current_group
  if 3 ≤ C then st
  else if List.lookup st.current_group st.group_init_source = some Trend.bearish ∧
      List.lookup st.current_group st.group_pending_retracement ≠ some Trend.bearish then
    st
  else
    match brk.tick with
    | none => st
    | some _tick =>
      match List.lookup pair_to_complete st.pairs with
      | none => st
      | some pair =>
        let step :=
          if pair.sell_filled then some (st, pair)
          else
            let r := execute_market_order cfg brk st .sell pair.sell_price pair_to_complete
            if r.ticket = 0 then none
            else
              let pair' := pair.fill_sell r.ticket
              some ({ r.state with pairs := assocSet r.state.pairs pair_to_complete pair' },
                pair')
        match step with
        | none => (execute_market_order cfg brk st .sell pair.sell_price pair_to_complete).state
        | some (st, pair) =>
          if C = 2 then
            { st with group_events := st.group_events ++
                [.expansion st.current_group .stepExpand pair_to_complete false 3] }
          else
            let new_pair_idx := pair_to_complete - 1
            if (List.lookup new_pair_idx st.pairs).isSome then st
            else
              let new_buy_price := pair.sell_price
              let new_sell_price := new_buy_price - cfg.spread
              let new_pair : GridPair :=
                { index := new_pair_idx, buy_price := new_buy_price,
                  sell_price := new_sell_price, next_action := .buy,
                  group_id := st.current_group }
              let st := { st with pairs := assocSet st.pairs new_pair_idx new_pair }
              let r := execute_market_order cfg brk st .buy new_pair.buy_price new_pair_idx
              if r.ticket = 0 then r.state
              else
                let np := new_pair.fill_buy r.ticket
                { r.state with
                    pairs := assocSet r.state.pairs new_pair_idx np,
                    group_events := r.state.group_events ++
                      [.expansion st.current_group .stepExpand pair_to_complete true (C + 1)] }

/-! ## Group initialization -/

/-- The non-atomic completing leg of the previous group fired at the end of a
successful INIT (`trigger_pair_idx` branch, symbol_engine.py:945-1001). -/
def init_backfill_leg (cfg : Config) (brk : Broker) (st : EngineState)
    (group_id : Int) (is_bullish_source : Bool) (tick : Tick)
    (trigger_pair_idx : Int) : EngineState :=
  let prev_group_id := group_id - 1
  let completing_leg : Direction := if is_bullish_source then .sell else .buy
  let completing_pair_idx :=
    if is_bullish_source then trigger_pair_idx - 1 else trigger_pair_idx + 1
  match List.lookup completing_pair_idx st.pairs with
  | none => st
  | some completing_pair =>
    let needs_completing :=
      if completing_leg = .sell then
        completing_pair.buy_filled && !completing_pair.sell_filled
      else
        completing_pair.sell_filled && !completing_pair.buy_filled
    if needs_completing then
      let completing_price := if completing_leg = .sell then tick.bid else tick.ask
      let r := execute_market_order cfg brk st completing_leg completing_price
        completing_pair_idx
      if r.ticket = 0 then r.state
      else
        let cp :=
          if completing_leg = .sell then completing_pair.fill_sell r.ticket
          else completing_pair.fill_buy r.ticket
        { r.state with
            pairs := assocSet r.state.pairs completing_pair_idx cp,
            group_events := r.state.group_events ++
              [.non_atomic_complete prev_group_id completing_pair_idx
                completing_leg.toLeg] }
    else st

/-- `SymbolEngine._execute_group_init` (symbol_engine.py:791-1003).  In source
order: the legacy group-1 directional intent, the retracement-tracking
assignments for `group_id` (init source, pending retracement, anchor,
fired-level reset) — all of which happen BEFORE the graceful-stop guard —
then the guard, the tick fetch, the two INIT pairs `B(offset)` and
`S(offset+1)` with rollback on order failure, the atomic commit of
`current_group` / anchors / step latches, the INIT log event, and the
optional non-atomic back-fill leg for the previous group. -/
def execute_group_init (cfg : Config) (brk : Broker) (st : EngineState)
    (group_id : Int) (anchor_price : ℚ) (is_bullish_source : Bool)
    (trigger_pair_idx : Option Int) : EngineState :=
  let src_trend := if is_bullish_source then Trend.bullish else Trend.bearish
  let st :=
    if group_id = 1 then { st with group_direction := some src_trend } else st
  let retr_trend := if is_bullish_source then Trend.bearish else Trend.bullish
  let st := { st with
    group_init_source := assocSet st.group_init_source group_id src_trend,
    group_pending_retracement := assocSet st.group_pending_retracement group_id retr_trend,
    group_retracement_anchor := assocSet st.group_retracement_anchor group_id anchor_price,
    group_retracement_levels_fired := assocSet st.group_retracement_levels_fired group_id [] }
  if st.graceful_stop then st
  else
    match brk.tick with
    | none => st
    | some tick =>
      let offset := group_id * GROUP_OFFSET
      let b_idx := offset
      let s_idx := offset + 1
      let b_price := anchor_price
      let pair_b : GridPair :=
        { index := b_idx, buy_price := b_price,
          sell_price := b_price - cfg.spread, next_action := .buy,
          group_id := group_id }
      let st := { st with pairs := assocSet st.pairs b_idx pair_b }
      let rb := execute_market_order cfg brk st .buy b_price b_idx
      if rb.ticket = 0 then
        { rb.state with pairs := assocErase rb.state.pairs b_idx }
      else
        let pair_b := pair_b.fill_buy rb.ticket
        let st := { rb.state with pairs := assocSet rb.state.pairs b_idx pair_b }
        let s_price := b_price
        let pair_s : GridPair :=
          { index := s_idx, buy_price := b_price + cfg.spread,
            sell_price := s_price, next_action := .sell, group_id := group_id }
        let st := { st with pairs := assocSet st.pairs s_idx pair_s }
        let rs := execute_market_order cfg brk st .sell s_price s_idx
        if rs.ticket = 0 then
          { rs.state with
              pairs := assocErase (assocErase rs.state.pairs s_idx) b_idx,
              closed_tickets := rs.state.closed_tickets ++ [rb.ticket] }
        else
          let pair_s := pair_s.fill_sell rs.ticket
          let st := { rs.state with pairs := assocSet rs.state.pairs s_idx pair_s }
          let st := { st with
            current_group := group_id,
            group_anchors := assocSet st.group_anchors group_id b_price,
            anchor_price := b_price,
            cycle_id := group_id,
            step1_bullish_triggered := false,
            step1_bearish_triggered := false,
            step2_bullish_triggered := false,
            step2_bearish_triggered := false,
            step1_triggered := false,
            step2_triggered := false,
            center_price := b_price,
            group_events := st.group_events ++
              [.init group_id anchor_price is_bullish_source] }
          match trigger_pair_idx with
          | none => st
          | some trig =>
            if 0 < group_id then
              init_backfill_leg cfg brk st group_id is_bullish_source tick trig
            else st

/-! ## Touch-flag latching and the ticket registry -/

/-- The per-ticket body of `_update_tp_sl_touch_flags`
(symbol_engine.py:721-737): each flag is latched (OR-ed) with the quote
comparison for its leg and never cleared. -/
def update_touch_one (ask bid : ℚ) (info : TicketInfo) (flags : TouchFlags) :
    TouchFlags :=
  match info.leg with
  | .B =>
    { tp_touched := flags.tp_touched || decide (info.tp_price ≤ bid),
      sl_touched := flags.sl_touched || decide (bid ≤ info.sl_price) }
  | .S =>
    { tp_touched := flags.tp_touched || decide (ask ≤ info.tp_price),
      sl_touched := flags.sl_touched || decide (info.sl_price ≤ ask) }

/-- `SymbolEngine._update_tp_sl_touch_flags` (symbol_engine.py:702-737):
iterate over `ticket_map`, lazily creating a `(false, false)` entry for a
ticket with no flags, then latch both flags from the quotes. -/
def update_tp_sl_touch_flags (tm : List (Nat × TicketInfo))
    (tf : List (Nat × TouchFlags)) (ask bid : ℚ) : List (Nat × TouchFlags) :=
  match tm with
  | [] => tf
  | (t, info) :: rest =>
    let flags := (List.lookup t tf).getD ⟨false, false⟩
    update_tp_sl_touch_flags rest (assocSet tf t (update_touch_one ask bid info flags))
      ask bid

/-- The engine operations that touch the ticket registry or its flags:
the per-tick latching pass, ticket registration on a successful market order
(symbol_engine.py:4358, which writes `ticket_map` only), and ticket removal
on drop cleanup (symbol_engine.py:2360-2363, 2626-2627, 2781-2783, which
deletes both the info and the flags). -/
inductive RegistryOp where
  | update_touch (ask bid : ℚ)
  | register (ticket : Nat) (info : TicketInfo)
  | removeTicket (ticket : Nat)
deriving DecidableEq, Repr

/-- The ticket registry: `ticket_map` plus `ticket_touch_flags`. -/
structure Registry where
  ticket_map : List (Nat × TicketInfo) := []
  touch : List (Nat × TouchFlags) := []
deriving DecidableEq, Repr

/-- Apply one registry operation. -/
def RegistryOp.apply (r : Registry) : RegistryOp → Registry
  | .update_touch ask bid =>
    { r with touch := update_tp_sl_touch_flags r.ticket_map r.touch ask bid }
  | .register t info => { r with ticket_map := assocSet r.ticket_map t info }
  | .removeTicket t =>
    { ticket_map := assocErase r.ticket_map t, touch := assocErase r.touch t }

/-- Apply a sequence of registry operations, oldest first. -/
def applyRegistryOps (r : Registry) (ops : List RegistryOp) : Registry :=
  ops.foldl RegistryOp.apply r

/-! ## TP/SL classification of dropped tickets -/

/-- The classification step of `_check_position_drops`
(symbol_engine.py:2636-2688): latched `tp_touched` wins, then latched
`sl_touched`, and with neither flag set the nearer of TP and SL to the
current quote (bid for a buy leg, ask for a sell leg) is inferred.  Returns
`(is_tp, event_price)`. -/
def classify_drop (flags : TouchFlags) (info : TicketInfo) (ask bid : ℚ) :
    Bool × ℚ :=
  if flags.tp_touched then (true, info.tp_price)
  else if flags.sl_touched then (false, info.sl_price)
  else
    let current_price := if info.leg = .B then bid else ask
    let dist_tp := |current_price - info.tp_price|
    let dist_sl := |current_price - info.sl_price|
    if dist_tp < dist_sl then (true, info.tp_price) else (false, info.sl_price)

/-! ## Persistence -/

/-- The columns of one `grid_pairs` row as written by `Repository.upsert_pair`
(repository.py:76-120).  The INSERT lists exactly these columns; in
particular `tp_blocked`, `group_id`, `locked_buy_entry` and
`locked_sell_entry` are not among them. -/
structure GridPairRow where
  pair_index : Int
  buy_price : ℚ
  sell_price : ℚ
  buy_ticket : Nat
  sell_ticket : Nat
  buy_filled : Bool
  sell_filled : Bool
  buy_pending_ticket : Int
  sell_pending_ticket : Int
  trade_count : Nat
  next_action : Direction
  is_reopened : Bool
  buy_in_zone : Bool
  sell_in_zone : Bool
  hedge_ticket : Nat
  hedge_direction : Option Direction
  hedge_active : Bool
deriving DecidableEq, Repr

/-- `Repository.upsert_pair` (repository.py:76-120) applied to
`asdict(pair)` (symbol_engine.py:4884-4886): the row stores exactly the
listed columns of the pair. -/
def upsert_pair_row (p : GridPair) : GridPairRow :=
  { pair_index := p.index, buy_price := p.buy_price, sell_price := p.sell_price,
    buy_ticket := p.buy_ticket, sell_ticket := p.sell_ticket,
    buy_filled := p.buy_filled, sell_filled := p.sell_filled,
    buy_pending_ticket := p.buy_pending_ticket,
    sell_pending_ticket := p.sell_pending_ticket,
    trade_count := p.trade_count, next_action := p.next_action,
    is_reopened := p.is_reopened, buy_in_zone := p.buy_in_zone,
    sell_in_zone := p.sell_in_zone, hedge_ticket := p.hedge_ticket,
    hedge_direction := p.hedge_direction, hedge_active := p.hedge_active }

/-- The per-row body of `SymbolEngine.load_state` (symbol_engine.py:4931-4985):
rebuild a `GridPair` from a row, then apply the three repair passes.
Fields the loader does not restore keep the `GridPair` dataclass defaults:
`row.get('tp_blocked', False)` yields `false` because `upsert_pair` never
writes a `tp_blocked` column, and `group_id`, `locked_buy_entry`,
`locked_sell_entry` and the hedge fields are not read back at all. -/
def load_pair_from_row (row : GridPairRow) : GridPair :=
  let pair : GridPair :=
    { index := row.pair_index, buy_price := row.buy_price,
      sell_price := row.sell_price, buy_ticket := row.buy_ticket,
      sell_ticket := row.sell_ticket, buy_filled := row.buy_filled,
      sell_filled := row.sell_filled,
      buy_pending_ticket := row.buy_pending_ticket,
      sell_pending_ticket := row.sell_pending_ticket,
      trade_count := row.trade_count, next_action := row.next_action,
      is_reopened := row.is_reopened, buy_in_zone := row.buy_in_zone,
      sell_in_zone := row.sell_in_zone, tp_blocked := false }
  let pair := if pair.buy_filled then { pair with buy_in_zone := true } else pair
  let pair := if pair.sell_filled then { pair with sell_in_zone := true } else pair
  let pair :=
    if pair.sell_filled && !pair.buy_filled then { pair with next_action := .buy }
    else if pair.buy_filled && !pair.sell_filled then { pair with next_action := .sell }
    else pair
  let pair :=
    if (pair.buy_filled || pair.sell_filled) && pair.trade_count = 0 then
      { pair with trade_count := 1 }
    else pair
  pair

/-- Round trip of one pair through the repository: save via
`upsert_pair`, reload via `load_state`. -/
def pair_roundtrip (p : GridPair) : GridPair :=
  load_pair_from_row (upsert_pair_row p)

/-! ## Claim theorems -/

/-- C10: whenever `center_price` is `0.0`, `_calculate_pair_index_from_price`
returns index `0` for every price and both directions; the rounding formula is
applied only for a non-zero `center_price`. -/
theorem zero_center_price_index_zero (spread price : ℚ) (d : Direction) :
    calculate_pair_index_from_price 0 spread price d = 0 := by
  simp [calculate_pair_index_from_price]

/-- C9: for every negative pair index absent from the pair store,
`_get_group_from_pair` returns `None` — the `pair_idx // GROUP_OFFSET`
fallback applies only to non-negative indices — so no group-membership
comparison can place such an index in any group. -/
theorem negative_missing_pair_has_no_group (pairs : List (Int × GridPair))
    (idx : Int) (hneg : idx < 0) (hmiss : List.lookup idx pairs = none) :
    get_group_from_pair pairs idx = none ∧
    ∀ gid : Int, get_group_from_pair pairs idx ≠ some gid := by
  unfold get_group_from_pair
  rw [hmiss]
  simp [not_le.mpr hneg]

/-- Witness for C9 at the concrete input `idx = -5` over an empty store. -/
theorem negative_missing_pair_has_no_group_witness :
    get_group_from_pair [] (-5) = none :=
  (negative_missing_pair_has_no_group [] (-5) (by norm_num) rfl).1

/-- C5 counterexample: the claimed round trip quantifies over EVERY anchor,
but `_calculate_pair_index_from_price` returns `0` whenever
`center_price == 0.0`, so at anchor `0`, spread `1`, index `n = 1` both
directions map back to `0`, not `1`. -/
theorem grid_roundtrip_fails_at_zero_anchor :
    ¬ (calculate_pair_index_from_price 0 1 (pair_buy_price 0 1 1) Direction.buy = 1 ∧
       calculate_pair_index_from_price 0 1 (pair_sell_price 0 1 1) Direction.sell = 1) := by
  simp [calculate_pair_index_from_price]

/-- C5 amended: for every NON-ZERO anchor, every positive spread and every
integer index `n`, the grid prices of index `n` map back to `n`: the buy
price through the buy-direction formula and the sell price through the
sell-direction formula. -/
theorem grid_roundtrip_nonzero_anchor (anchor spread : ℚ) (n : Int)
    (ha : anchor ≠ 0) (hs : 0 < spread) :
    calculate_pair_index_from_price anchor spread (pair_buy_price anchor spread n)
      Direction.buy = n ∧
    calculate_pair_index_from_price anchor spread (pair_sell_price anchor spread n)
      Direction.sell = n := by
  have hs0 : spread ≠ 0 := ne_of_gt hs
  unfold calculate_pair_index_from_price pair_buy_price pair_sell_price
  rw [if_neg ha, if_neg ha]
  constructor
  · have h : (anchor + n * spread - anchor) / spread = (n : ℚ) := by
      field_simp
    simp only [h, round_intCast]
  · have h : (anchor + n * spread - spread - anchor) / spread = ((n - 1 : Int) : ℚ) := by
      field_simp
      ring
    simp only [pair_buy_price, h, round_intCast]
    omega

/-- Witness for the amended C5 at anchor `1000`, spread `20`, index `3`. -/
theorem grid_roundtrip_nonzero_anchor_witness :
    calculate_pair_index_from_price 1000 20 (pair_buy_price 1000 20 3)
      Direction.buy = 3 ∧
    calculate_pair_index_from_price 1000 20 (pair_sell_price 1000 20 3)
      Direction.sell = 3 :=
  grid_roundtrip_nonzero_anchor 1000 20 3 (by norm_num) (by norm_num)

/-- C3: the classification of a dropped ticket with a full five-field
`TicketInfo` is deterministic: a latched `tp_touched` classifies TP at
`tp_price`; otherwise a latched `sl_touched` classifies SL at `sl_price`;
otherwise the fallback compares the distance of the current quote (bid for a
buy leg, ask for a sell leg) to the TP level against the SL level and picks
the nearer one. -/
theorem drop_classification_deterministic (flags : TouchFlags)
    (info : TicketInfo) (ask bid : ℚ) :
    (flags.tp_touched = true →
      classify_drop flags info ask bid = (true, info.tp_price)) ∧
    (flags.tp_touched = false → flags.sl_touched = true →
      classify_drop flags info ask bid = (false, info.sl_price)) ∧
    (flags.tp_touched = false → flags.sl_touched = false →
      classify_drop flags info ask bid =
        (if |(if info.leg = Leg.B then bid else ask) - info.tp_price| <
            |(if info.leg = Leg.B then bid else ask) - info.sl_price|
         then (true, info.tp_price) else (false, info.sl_price))) := by
  refine ⟨fun h => ?_, fun h h' => ?_, fun h h' => ?_⟩
  · simp [classify_drop, h]
  · simp [classify_drop, h, h']
  · simp [classify_drop, h, h']

/-- Witness for C3: a buy-leg ticket with a latched TP flag classifies as TP
at its stored TP price. -/
theorem drop_classification_deterministic_witness :
    classify_drop ⟨true, false⟩ ⟨0, Leg.B, 100, 120, 80⟩ 101 100 = (true, 120) :=
  (drop_classification_deterministic ⟨true, false⟩ ⟨0, Leg.B, 100, 120, 80⟩ 101 100).1 rfl

/-- A pair as it stands in memory before a save: retired (`tp_blocked`),
in group 1, with both locked entries set. -/
def pair_before_save : GridPair :=
  { index := 100, buy_price := 1000, sell_price := 980, buy_ticket := 11,
    sell_ticket := 12, buy_filled := true, sell_filled := true,
    trade_count := 2, next_action := .buy, buy_in_zone := true,
    sell_in_zone := true, group_id := 1, locked_buy_entry := 1000,
    locked_sell_entry := 980, tp_blocked := true }

/-- C8: the persistence round trip is NOT the identity.  `upsert_pair`
persists no `tp_blocked`, `group_id`, `locked_buy_entry` or
`locked_sell_entry` column and `load_state` does not restore them, so a
retired group-1 pair with locked entries reloads as an unretired group-0
pair with zero locked entries. -/
theorem persistence_roundtrip_loses_fields :
    pair_roundtrip pair_before_save ≠ pair_before_save ∧
    (pair_roundtrip pair_before_save).tp_blocked = false ∧
    (pair_roundtrip pair_before_save).group_id = 0 ∧
    (pair_roundtrip pair_before_save).locked_buy_entry = 0 ∧
    (pair_roundtrip pair_before_save).locked_sell_entry = 0 ∧
    pair_before_save.tp_blocked = true ∧
    pair_before_save.group_id = 1 ∧
    pair_before_save.locked_buy_entry = 1000 := by
  refine ⟨?_, by decide, by decide, by decide, by decide, rfl, rfl, rfl⟩
  decide

/-! ## Structural lemmas about `execute_market_order` -/

/-- The gate refuses when the pair's group is capped, the pair has exactly one
leg filled, and the hedging-leg exception does not apply. -/
theorem can_place_completing_leg_false (pairs : List (Int × GridPair))
    (tm : List (Nat × TicketInfo)) (openTickets : List Nat)
    (max_positions : Nat) (index : Int) (leg : Leg) (pair : GridPair)
    (hp : List.lookup index pairs = some pair)
    (hC : 3 ≤ count_completed_pairs_for_group pairs tm openTickets pair.group_id)
    (hxor : pair.buy_filled ≠ pair.sell_filled)
    (hmax : pair.trade_count + 1 < max_positions) :
    can_place_completing_leg pairs tm openTickets max_positions index leg = false := by
  unfold can_place_completing_leg
  rw [hp]
  dsimp only
  rw [if_pos hC, if_neg (by omega : ¬ max_positions ≤ pair.trade_count + 1),
    if_pos hxor]

/-- `_execute_market_order` never emits group-logger events. -/
theorem execute_market_order_group_events (cfg : Config) (brk : Broker)
    (st : EngineState) (d : Direction) (price : ℚ) (i : Int) :
    (execute_market_order cfg brk st d price i).state.group_events =
      st.group_events := by
  unfold execute_market_order
  dsimp only
  repeat' split
  all_goals simp [gate_highwater_bump_group_events]

/-- `_execute_market_order` touches at most the pair it trades on: every other
index of the pair store is unchanged. -/
theorem execute_market_order_pairs_lookup (cfg : Config) (brk : Broker)
    (st : EngineState) (d : Direction) (price : ℚ) (i j : Int) (hj : j ≠ i) :
    List.lookup j (execute_market_order cfg brk st d price i).state.pairs =
      List.lookup j st.pairs := by
  unfold execute_market_order
  dsimp only
  repeat' split
  all_goals simp [gate_highwater_bump_pairs, lookup_assocSet_ne _ _ _ _ hj]

/-- The direction and pair index of each submitted order, in order. -/
def order_tags (l : List OrderRecord) : List (Direction × Int) :=
  l.map fun rec => (rec.direction, rec.index)

/-- `_execute_market_order` either leaves `orders_sent` unchanged and returns
ticket `0`, or appends exactly one order record, carrying the requested
direction and pair index. -/
theorem execute_market_order_orders (cfg : Config) (brk : Broker)
    (st : EngineState) (d : Direction) (price : ℚ) (i : Int) :
    ((execute_market_order cfg brk st d price i).ticket = 0 ∧
     (execute_market_order cfg brk st d price i).state.orders_sent =
       st.orders_sent) ∨
    order_tags (execute_market_order cfg brk st d price i).state.orders_sent =
      order_tags st.orders_sent ++ [(d, i)] := by
  unfold execute_market_order
  dsimp only
  repeat' split
  all_goals first
    | (refine Or.inl ⟨rfl, ?_⟩
       simp [gate_highwater_bump_orders_sent]
       done)
    | (refine Or.inr ?_
       simp [order_tags, gate_highwater_bump_orders_sent]
       done)

/-- `_execute_market_order` never changes the active group. -/
theorem execute_market_order_current_group (cfg : Config) (brk : Broker)
    (st : EngineState) (d : Direction) (price : ℚ) (i : Int) :
    (execute_market_order cfg brk st d price i).state.current_group =
      st.current_group := by
  unfold execute_market_order
  dsimp only
  repeat' split
  all_goals simp [gate_highwater_bump_current_group]

/-! ## C1: the completion-cap gate -/

/-- C1: a market order for an existing pair whose group has `C ≥ 3` completed
pairs, where the pair has exactly one leg filled and the hedging-leg
exception does not apply, is refused: the call returns ticket `0`, submits
no order to the broker, registers no ticket, and leaves the pair store
unchanged.  Conversely the gate admits the order when the new trade reaches
`max_positions` (hedging leg) or when the pair is already complete (toggle
re-trade). -/
theorem completion_cap_gate :
    (∀ (cfg : Config) (brk : Broker) (st : EngineState) (d : Direction)
        (price : ℚ) (index : Int) (pair : GridPair),
      List.lookup index st.pairs = some pair →
      3 ≤ count_completed_pairs_for_group st.pairs st.ticket_map brk.positions
          pair.group_id →
      pair.buy_filled ≠ pair.sell_filled →
      pair.trade_count + 1 < cfg.max_positions →
      (execute_market_order cfg brk st d price index).ticket = 0 ∧
      (execute_market_order cfg brk st d price index).state.ticket_map =
        st.ticket_map ∧
      (execute_market_order cfg brk st d price index).state.orders_sent =
        st.orders_sent ∧
      (execute_market_order cfg brk st d price index).state.pairs = st.pairs) ∧
    (∀ (pairs : List (Int × GridPair)) (tm : List (Nat × TicketInfo))
        (openTickets : List Nat) (max_positions : Nat) (index : Int)
        (leg : Leg) (pair : GridPair),
      List.lookup index pairs = some pair →
      max_positions ≤ pair.trade_count + 1 →
      can_place_completing_leg pairs tm openTickets max_positions index leg = true) ∧
    (∀ (pairs : List (Int × GridPair)) (tm : List (Nat × TicketInfo))
        (openTickets : List Nat) (max_positions : Nat) (index : Int)
        (leg : Leg) (pair : GridPair),
      List.lookup index pairs = some pair →
      pair.buy_filled = true → pair.sell_filled = true →
      can_place_completing_leg pairs tm openTickets max_positions index leg = true) := by
  refine ⟨?_, ?_, ?_⟩
  · intro cfg brk st d price index pair hp hC hxor hmax
    have hfalse := can_place_completing_leg_false st.pairs st.ticket_map
      brk.positions cfg.max_positions index d.toLeg pair hp hC hxor hmax
    unfold execute_market_order
    dsimp only
    rw [gate_highwater_bump_pairs, gate_highwater_bump_ticket_map, hfalse]
    refine ⟨?_, ?_, ?_, ?_⟩ <;>
      simp [gate_highwater_bump_ticket_map, gate_highwater_bump_orders_sent,
        gate_highwater_bump_pairs]
  · intro pairs tm openTickets max_positions index leg pair hp hmax
    unfold can_place_completing_leg
    rw [hp]
    dsimp only
    by_cases hC : 3 ≤ count_completed_pairs_for_group pairs tm openTickets pair.group_id
    · rw [if_pos hC, if_pos hmax]
    · rw [if_neg hC]
  · intro pairs tm openTickets max_positions index leg pair hp hb hs
    unfold can_place_completing_leg
    rw [hp]
    dsimp only
    by_cases hC : 3 ≤ count_completed_pairs_for_group pairs tm openTickets pair.group_id
    · rw [if_pos hC]
      by_cases hmax : max_positions ≤ pair.trade_count + 1
      · rw [if_pos hmax]
      · rw [if_neg hmax, if_neg (by simp [hb, hs])]
    · rw [if_neg hC]

/-- Ticket map with three completed pairs (indices 10, 11, 12) of group 0
among the broker's open positions. -/
def tm_three_completed : List (Nat × TicketInfo) :=
  [(1, ⟨10, .B, 1000, 1020, 980⟩), (2, ⟨10, .S, 1000, 980, 1020⟩),
   (3, ⟨11, .B, 1020, 1040, 1000⟩), (4, ⟨11, .S, 1020, 1000, 1040⟩),
   (5, ⟨12, .B, 1040, 1060, 1020⟩), (6, ⟨12, .S, 1040, 1020, 1060⟩)]

/-- Broker for the C1 witness: all six legs open, orders would succeed. -/
def brk_capped : Broker :=
  { tick := some ⟨1060, 1059⟩, symbol_info := none,
    positions := [1, 2, 3, 4, 5, 6], send := fun _ => some 900 }

/-- A sell-only incomplete pair at index 3 in group 0. -/
def pair_incomplete3 : GridPair :=
  { index := 3, buy_price := 1060, sell_price := 1040, sell_filled := true,
    sell_ticket := 7, trade_count := 1, next_action := .buy, group_id := 0 }

/-- Engine state for the C1 witness: one incomplete pair, capped group. -/
def st_capped : EngineState :=
  { pairs := [(3, pair_incomplete3)], ticket_map := tm_three_completed }

/-- Witness for C1: completing pair 3 while group 0 holds three completed
pairs is refused with no side effect. -/
theorem completion_cap_gate_witness :
    (execute_market_order {} brk_capped st_capped .buy 1060 3).ticket = 0 ∧
    (execute_market_order {} brk_capped st_capped .buy 1060 3).state.ticket_map =
      st_capped.ticket_map ∧
    (execute_market_order {} brk_capped st_capped .buy 1060 3).state.orders_sent =
      st_capped.orders_sent ∧
    (execute_market_order {} brk_capped st_capped .buy 1060 3).state.pairs =
      st_capped.pairs :=
  completion_cap_gate.1 {} brk_capped st_capped .buy 1060 3 pair_incomplete3
    rfl (by decide) (by decide) (by decide)

/-! ## C2: non-atomic completion at high-water C = 2 -/

/-- C2: when the pre-step high-water completed-pair count of the current
group equals `2`, `_expand_bullish n` (and symmetrically `_expand_bearish n`)
places only the single completing leg of pair `n`, creates no seed pair
(`n+1` for bullish, `n−1` for bearish), logs a non-atomic `STEP_EXPAND`
event and returns without any further order. -/
theorem non_atomic_completion_at_c2 :
    (∀ (cfg : Config) (brk : Broker) (st : EngineState) (n : Int)
        (pair : GridPair) (tk : Tick),
      get_c_highwater st st.current_group = 2 →
      ¬ (List.lookup st.current_group st.group_init_source = some Trend.bullish ∧
         List.lookup st.current_group st.group_pending_retracement ≠ some Trend.bullish) →
      brk.tick = some tk →
      List.lookup n st.pairs = some pair →
      pair.buy_filled = false →
      (execute_market_order cfg brk st .buy pair.buy_price n).ticket ≠ 0 →
      expand_bullish cfg brk st n =
        { (execute_market_order cfg brk st .buy pair.buy_price n).state with
            pairs := assocSet
              (execute_market_order cfg brk st .buy pair.buy_price n).state.pairs n
              (pair.fill_buy (execute_market_order cfg brk st .buy pair.buy_price n).ticket),
            group_events :=
              (execute_market_order cfg brk st .buy pair.buy_price n).state.group_events ++
                [GroupEvent.expansion st.current_group ExpansionKind.stepExpand n false 3] } ∧
      List.lookup (n + 1) (expand_bullish cfg brk st n).pairs =
        List.lookup (n + 1) st.pairs ∧
      order_tags (expand_bullish cfg brk st n).orders_sent =
        order_tags st.orders_sent ++ [(Direction.buy, n)] ∧
      (expand_bullish cfg brk st n).group_events =
        st.group_events ++
          [GroupEvent.expansion st.current_group ExpansionKind.stepExpand n false 3]) ∧
    (∀ (cfg : Config) (brk : Broker) (st : EngineState) (n : Int)
        (pair : GridPair) (tk : Tick),
      get_c_highwater st st.current_group = 2 →
      ¬ (List.lookup st.current_group st.group_init_source = some Trend.bearish ∧
         List.lookup st.current_group st.group_pending_retracement ≠ some Trend.bearish) →
      brk.tick = some tk →
      List.lookup n st.pairs = some pair →
      pair.sell_filled = false →
      (execute_market_order cfg brk st .sell pair.sell_price n).ticket ≠ 0 →
      expand_bearish cfg brk st n =
        { (execute_market_order cfg brk st .sell pair.sell_price n).state with
            pairs := assocSet
              (execute_market_order cfg brk st .sell pair.sell_price n).state.pairs n
              (pair.fill_sell (execute_market_order cfg brk st .sell pair.sell_price n).ticket),
            group_events :=
              (execute_market_order cfg brk st .sell pair.sell_price n).state.group_events ++
                [GroupEvent.expansion st.current_group ExpansionKind.stepExpand n false 3] } ∧
      List.lookup (n - 1) (expand_bearish cfg brk st n).pairs =
        List.lookup (n - 1) st.pairs ∧
      order_tags (expand_bearish cfg brk st n).orders_sent =
        order_tags st.orders_sent ++ [(Direction.sell, n)] ∧
      (expand_bearish cfg brk st n).group_events =
        st.group_events ++
          [GroupEvent.expansion st.current_group ExpansionKind.stepExpand n false 3]) := by
  constructor
  · intro cfg brk st n pair tk hCW hguard htick hp hbf hticket
    have hmain : expand_bullish cfg brk st n =
        { (execute_market_order cfg brk st .buy pair.buy_price n).state with
            pairs := assocSet
              (execute_market_order cfg brk st .buy pair.buy_price n).state.pairs n
              (pair.fill_buy (execute_market_order cfg brk st .buy pair.buy_price n).ticket),
            group_events :=
              (execute_market_order cfg brk st .buy pair.buy_price n).state.group_events ++
                [GroupEvent.expansion st.current_group ExpansionKind.stepExpand n false 3] } := by
      unfold expand_bullish
      rw [hCW]
      rw [if_neg (by omega : ¬ (3 ≤ 2)), if_neg hguard, htick, hp]
      dsimp only
      rw [hbf]
      simp only [Bool.false_eq_true, if_false, if_neg hticket]
      simp [execute_market_order_current_group]
    refine ⟨hmain, ?_, ?_, ?_⟩
    · rw [hmain]
      show List.lookup (n + 1) (assocSet _ n _) = _
      rw [lookup_assocSet_ne _ _ _ _ (by omega : n + 1 ≠ n)]
      exact execute_market_order_pairs_lookup cfg brk st .buy pair.buy_price n
        (n + 1) (by omega)
    · rw [hmain]
      show order_tags (execute_market_order cfg brk st .buy pair.buy_price n).state.orders_sent = _
      rcases execute_market_order_orders cfg brk st .buy pair.buy_price n with
        ⟨h0, _⟩ | happ
      · exact absurd h0 hticket
      · exact happ
    · rw [hmain]
      show (execute_market_order cfg brk st .buy pair.buy_price n).state.group_events ++ _ = _
      rw [execute_market_order_group_events]
  · intro cfg brk st n pair tk hCW hguard htick hp hsf hticket
    have hmain : expand_bearish cfg brk st n =
        { (execute_market_order cfg brk st .sell pair.sell_price n).state with
            pairs := assocSet
              (execute_market_order cfg brk st .sell pair.sell_price n).state.pairs n
              (pair.fill_sell (execute_market_order cfg brk st .sell pair.sell_price n).ticket),
            group_events :=
              (execute_market_order cfg brk st .sell pair.sell_price n).state.group_events ++
                [GroupEvent.expansion st.current_group ExpansionKind.stepExpand n false 3] } := by
      unfold expand_bearish
      rw [hCW]
      rw [if_neg (by omega : ¬ (3 ≤ 2)), if_neg hguard, htick, hp]
      dsimp only
      rw [hsf]
      simp only [Bool.false_eq_true, if_false, if_neg hticket]
      simp [execute_market_order_current_group]
    refine ⟨hmain, ?_, ?_, ?_⟩
    · rw [hmain]
      show List.lookup (n - 1) (assocSet _ n _) = _
      rw [lookup_assocSet_ne _ _ _ _ (by omega : n - 1 ≠ n)]
      exact execute_market_order_pairs_lookup cfg brk st .sell pair.sell_price n
        (n - 1) (by omega)
    · rw [hmain]
      show order_tags (execute_market_order cfg brk st .sell pair.sell_price n).state.orders_sent = _
      rcases execute_market_order_orders cfg brk st .sell pair.sell_price n with
        ⟨h0, _⟩ | happ
      · exact absurd h0 hticket
      · exact happ
    · rw [hmain]
      show (execute_market_order cfg brk st .sell pair.sell_price n).state.group_events ++ _ = _
      rw [execute_market_order_group_events]

/-- A five-step lot ladder matching the documented configuration. -/
def cfg5 : Config :=
  { lot_sizes := [1 / 100, 2 / 100, 3 / 100, 4 / 100, 5 / 100] }

/-- Broker for the C2 witness: quotes at the trigger level, orders granted. -/
def brk_c2 : Broker :=
  { tick := some ⟨1020, 1019⟩, symbol_info := none, positions := [],
    send := fun _ => some 901 }

/-- A sell-only incomplete pair at index 1 awaiting its completing buy. -/
def pair_sell_only : GridPair :=
  { index := 1, buy_price := 1020, sell_price := 1000, sell_filled := true,
    sell_ticket := 55, trade_count := 1, next_action := .buy, group_id := 0 }

/-- Engine state for the bullish C2 witness: high-water C = 2 in group 0. -/
def st_c2 : EngineState :=
  { pairs := [(1, pair_sell_only)], group_c_highwater := [(0, 2)] }

/-- A buy-only incomplete pair at index 1 awaiting its completing sell. -/
def pair_buy_only : GridPair :=
  { index := 1, buy_price := 1020, sell_price := 1000, buy_filled := true,
    buy_ticket := 56, trade_count := 1, next_action := .sell, group_id := 0 }

/-- Engine state for the bearish C2 witness. -/
def st_c2b : EngineState :=
  { pairs := [(1, pair_buy_only)], group_c_highwater := [(0, 2)] }

/-- Witness for C2: at high-water C = 2, completing pair 1 seeds no pair 2
(bullish) and no pair 0 (bearish), and logs the non-atomic STEP_EXPAND. -/
theorem non_atomic_completion_at_c2_witness :
    (List.lookup 2 (expand_bullish cfg5 brk_c2 st_c2 1).pairs =
        List.lookup 2 st_c2.pairs ∧
      (expand_bullish cfg5 brk_c2 st_c2 1).group_events =
        st_c2.group_events ++
          [GroupEvent.expansion 0 ExpansionKind.stepExpand 1 false 3]) ∧
    (List.lookup 0 (expand_bearish cfg5 brk_c2 st_c2b 1).pairs =
        List.lookup 0 st_c2b.pairs ∧
      (expand_bearish cfg5 brk_c2 st_c2b 1).group_events =
        st_c2b.group_events ++
          [GroupEvent.expansion 0 ExpansionKind.stepExpand 1 false 3]) := by
  constructor
  · have h := non_atomic_completion_at_c2.1 cfg5 brk_c2 st_c2 1 pair_sell_only
      ⟨1020, 1019⟩ rfl (by simp [st_c2]) rfl rfl rfl (by decide)
    exact ⟨h.2.1, h.2.2.2⟩
  · have h := non_atomic_completion_at_c2.2 cfg5 brk_c2 st_c2b 1 pair_buy_only
      ⟨1020, 1019⟩ rfl (by simp [st_c2b]) rfl rfl rfl (by decide)
    exact ⟨h.2.1, h.2.2.2⟩

/-! ## C4: touch-flag latching and monotonicity -/

/-- A ticket that appears in none of the iterated `ticket_map` entries keeps
its flags untouched by the latching pass. -/
theorem lookup_update_touch_of_not_key (tm : List (Nat × TicketInfo))
    (tf : List (Nat × TouchFlags)) (ask bid : ℚ) (t : Nat)
    (h : ∀ p ∈ tm, p.1 ≠ t) :
    List.lookup t (update_tp_sl_touch_flags tm tf ask bid) =
      List.lookup t tf := by
  induction tm generalizing tf with
  | nil => rfl
  | cons hd tl ih =>
    obtain ⟨t₀, info₀⟩ := hd
    have ht₀ : t₀ ≠ t := h (t₀, info₀) (List.mem_cons_self _ _)
    simp only [update_tp_sl_touch_flags]
    rw [ih _ fun p hp => h p (List.mem_cons_of_mem _ hp)]
    exact lookup_assocSet_ne _ _ _ _ (Ne.symm ht₀)

/-- A registered ticket's flags after the latching pass are exactly its old
flags (default `(false, false)`) put through the per-ticket latch. -/
theorem lookup_update_touch_of_key (tm : List (Nat × TicketInfo))
    (tf : List (Nat × TouchFlags)) (ask bid : ℚ) (t : Nat) (info : TicketInfo)
    (hnd : (tm.map Prod.fst).Nodup) (hmem : List.lookup t tm = some info) :
    List.lookup t (update_tp_sl_touch_flags tm tf ask bid) =
      some (update_touch_one ask bid info
        ((List.lookup t tf).getD ⟨false, false⟩)) := by
  induction tm generalizing tf with
  | nil => simp [List.lookup] at hmem
  | cons hd tl ih =>
    obtain ⟨t₀, info₀⟩ := hd
    simp only [List.map, List.nodup_cons] at hnd
    obtain ⟨hnotin, hnd'⟩ := hnd
    by_cases h : t = t₀
    · subst h
      have hinfo : info₀ = info := by simpa [List.lookup] using hmem
      subst hinfo
      simp only [update_tp_sl_touch_flags]
      rw [lookup_update_touch_of_not_key _ _ _ _ _
        (fun p hp he => hnotin (by rw [← he]; exact List.mem_map_of_mem Prod.fst hp))]
      exact lookup_assocSet_self _ _ _
    · have hbne : (t == t₀) = false := beq_eq_false_iff_ne.mpr h
      have hmem' : List.lookup t tl = some info := by
        simpa [List.lookup, hbne] using hmem
      simp only [update_tp_sl_touch_flags]
      rw [ih _ hnd' hmem', lookup_assocSet_ne _ _ _ _ h]

/-- The per-ticket latch only ever turns flags on. -/
theorem update_touch_one_mono (ask bid : ℚ) (info : TicketInfo)
    (f : TouchFlags) :
    (f.tp_touched = true → (update_touch_one ask bid info f).tp_touched = true) ∧
    (f.sl_touched = true → (update_touch_one ask bid info f).sl_touched = true) := by
  cases hleg : info.leg <;> constructor <;> intro h <;>
    simp [update_touch_one, hleg, h]

/-- The latching pass never clears a flag of any ticket. -/
theorem update_touch_flags_mono (tm : List (Nat × TicketInfo))
    (tf : List (Nat × TouchFlags)) (ask bid : ℚ) (t : Nat) (f : TouchFlags)
    (hf : List.lookup t tf = some f) :
    ∃ f', List.lookup t (update_tp_sl_touch_flags tm tf ask bid) = some f' ∧
      (f.tp_touched = true → f'.tp_touched = true) ∧
      (f.sl_touched = true → f'.sl_touched = true) := by
  induction tm generalizing tf f with
  | nil => exact ⟨f, hf, fun h => h, fun h => h⟩
  | cons hd tl ih =>
    obtain ⟨t₀, info₀⟩ := hd
    simp only [update_tp_sl_touch_flags]
    by_cases h : t = t₀
    · subst h
      have hflags : (List.lookup t tf).getD ⟨false, false⟩ = f := by
        rw [hf]
        rfl
      rw [hflags]
      obtain ⟨f', hl, htp, hsl⟩ := ih _ _
        (lookup_assocSet_self tf t (update_touch_one ask bid info₀ f))
      exact ⟨f', hl,
        fun h => htp ((update_touch_one_mono ask bid info₀ f).1 h),
        fun h => hsl ((update_touch_one_mono ask bid info₀ f).2 h)⟩
    · obtain ⟨f', hl, htp, hsl⟩ := ih
        (assocSet tf t₀ (update_touch_one ask bid info₀
          ((List.lookup t₀ tf).getD ⟨false, false⟩))) f
        (by rw [lookup_assocSet_ne _ _ _ _ h]; exact hf)
      exact ⟨f', hl, htp, hsl⟩

/-- C4: on each touch-flag update with quotes `(ask, bid)`, a registered
buy-leg ticket latches `tp_touched` when `bid ≥ tp` and `sl_touched` when
`bid ≤ sl`, and a sell-leg ticket latches `tp_touched` when `ask ≤ tp` and
`sl_touched` when `ask ≥ sl`, OR-ed onto the previous flags; and both flags
are monotone: across any sequence of registry operations that does not remove
the ticket, a flag once `true` stays `true`. -/
theorem touch_flag_latch_and_monotone :
    (∀ (tm : List (Nat × TicketInfo)) (tf : List (Nat × TouchFlags))
        (ask bid : ℚ) (t : Nat) (info : TicketInfo),
      (tm.map Prod.fst).Nodup →
      List.lookup t tm = some info →
      List.lookup t (update_tp_sl_touch_flags tm tf ask bid) =
        some ⟨((List.lookup t tf).getD ⟨false, false⟩).tp_touched
            || (if info.leg = Leg.B then decide (info.tp_price ≤ bid) else decide (ask ≤ info.tp_price)),
          ((List.lookup t tf).getD ⟨false, false⟩).sl_touched
            || (if info.leg = Leg.B then decide (bid ≤ info.sl_price) else decide (info.sl_price ≤ ask))⟩) ∧
    (∀ (r : Registry) (ops : List RegistryOp) (t : Nat) (f : TouchFlags),
      List.lookup t r.touch = some f →
      (∀ op ∈ ops, op ≠ RegistryOp.removeTicket t) →
      ∃ f', List.lookup t (applyRegistryOps r ops).touch = some f' ∧
        (f.tp_touched = true → f'.tp_touched = true) ∧
        (f.sl_touched = true → f'.sl_touched = true)) := by
  constructor
  · intro tm tf ask bid t info hnd hmem
    rw [lookup_update_touch_of_key tm tf ask bid t info hnd hmem]
    cases hleg : info.leg <;> simp [update_touch_one, hleg]
  · intro r ops t f hf hnr
    induction ops generalizing r f with
    | nil => exact ⟨f, hf, fun h => h, fun h => h⟩
    | cons op ops ih =>
      have hop := hnr op (List.mem_cons_self _ _)
      have hrest : ∀ o ∈ ops, o ≠ RegistryOp.removeTicket t :=
        fun o ho => hnr o (List.mem_cons_of_mem _ ho)
      simp only [applyRegistryOps, List.foldl] at ih ⊢
      cases op with
      | update_touch a b =>
        obtain ⟨g, hg, htp, hsl⟩ :=
          update_touch_flags_mono r.ticket_map r.touch a b t f hf
        obtain ⟨f', hf', htp', hsl'⟩ :=
          ih (RegistryOp.apply r (RegistryOp.update_touch a b)) g hg hrest
        exact ⟨f', hf', fun h => htp' (htp h), fun h => hsl' (hsl h)⟩
      | register t' info =>
        exact ih (RegistryOp.apply r (RegistryOp.register t' info)) f hf hrest
      | removeTicket t' =>
        refine ih (RegistryOp.apply r (RegistryOp.removeTicket t')) f ?_ hrest
        show List.lookup t (assocErase r.touch t') = some f
        rw [lookup_assocErase_ne _ _ _ fun he => hop (by rw [he])]
        exact hf

/-- A single registered buy-leg ticket for the C4 witness. -/
def info_buy_leg : TicketInfo := ⟨0, Leg.B, 100, 120, 80⟩

/-- Registry for the C4 witness: ticket 9 with a latched TP flag. -/
def reg_w : Registry :=
  { ticket_map := [(9, info_buy_leg)], touch := [(9, ⟨true, false⟩)] }

/-- Witness for C4: at `bid = 120 = tp` a fresh buy-leg ticket latches
`tp_touched`, and a latched flag survives a further update and an unrelated
registration. -/
theorem touch_flag_latch_and_monotone_witness :
    List.lookup 9 (update_tp_sl_touch_flags [(9, info_buy_leg)] [] 121 120) =
      some ⟨true, false⟩ ∧
    ∃ f', List.lookup 9 (applyRegistryOps reg_w
        [RegistryOp.update_touch 50 50,
         RegistryOp.register 10 ⟨1, Leg.S, 5, 6, 7⟩]).touch = some f' ∧
      ((⟨true, false⟩ : TouchFlags).tp_touched = true → f'.tp_touched = true) ∧
      ((⟨true, false⟩ : TouchFlags).sl_touched = true → f'.sl_touched = true) := by
  constructor
  · have h := touch_flag_latch_and_monotone.1 [(9, info_buy_leg)] [] 121 120 9
      info_buy_leg (by simp) rfl
    simpa [info_buy_leg] using h
  · exact touch_flag_latch_and_monotone.2 reg_w
      [RegistryOp.update_touch 50 50, RegistryOp.register 10 ⟨1, Leg.S, 5, 6, 7⟩]
      9 ⟨true, false⟩ rfl (by decide)

/-! ## C6: retirement is not consulted by step-trigger expansion -/

/-- Broker for the C6 evaluation: quotes at the trigger level, two orders
granted as tickets 777 and 778. -/
def brk_retired : Broker :=
  { tick := some ⟨1020, 1019⟩, symbol_info := none, positions := [],
    send := fun k => if k = 0 then some 777 else some 778 }

/-- A RETIRED (`tp_blocked = true`) sell-only pair at index 1: its sell leg
dropped on a TP or SL, `_check_position_drops` set `tp_blocked` but left
`sell_filled` latched (the fill flags are never cleared on a drop). -/
def pair_retired : GridPair :=
  { index := 1, buy_price := 1020, sell_price := 1000, sell_filled := true,
    sell_ticket := 55, trade_count := 1, next_action := .buy, group_id := 0,
    tp_blocked := true }

/-- Engine state for the C6 evaluation. -/
def st_retired : EngineState := { pairs := [(1, pair_retired)] }

/-- C6 evaluation: `_expand_bullish` never reads `tp_blocked`, so invoked on
the retired pair 1 it places the completing buy and registers the new position
ticket 777 for pair 1 — violating the claimed invariant that a `tp_blocked`
pair never gets a new ticket registered. -/
theorem retirement_not_sticky_in_expansion :
    (List.lookup 1 st_retired.pairs).map GridPair.tp_blocked = some true ∧
    List.lookup 777 st_retired.ticket_map = none ∧
    (List.lookup 777 (expand_bullish cfg5 brk_retired st_retired 1).ticket_map).map
      TicketInfo.pair_idx = some 1 := by
  refine ⟨rfl, rfl, ?_⟩
  decide

/-! ## C7: group init under graceful stop -/

/-- Engine state with an active graceful stop. -/
def st_stop : EngineState := { graceful_stop := true }

/-- Broker for the C7 evaluation. -/
def brk_stop : Broker :=
  { tick := some ⟨1000, 999⟩, symbol_info := none, positions := [],
    send := fun _ => some 1 }

/-- C7 counterexample: with `graceful_stop = true`, `_execute_group_init`
does NOT abort before every state change — the per-group tracking
(init source, pending retracement, retracement anchor, fired-level set)
for the new group is recorded before the guard runs. -/
theorem group_init_graceful_stop_records_tracking :
    st_stop.graceful_stop = true ∧
    List.lookup 1 st_stop.group_init_source = none ∧
    List.lookup 1 (execute_group_init {} brk_stop st_stop 1 1000 true none).group_init_source
      = some Trend.bullish ∧
    List.lookup 1 (execute_group_init {} brk_stop st_stop 1 1000 true none).group_pending_retracement
      = some Trend.bearish ∧
    List.lookup 1 (execute_group_init {} brk_stop st_stop 1 1000 true none).group_retracement_anchor
      = some 1000 ∧
    List.lookup 1 (execute_group_init {} brk_stop st_stop 1 1000 true none).group_retracement_levels_fired
      = some [] := by
  refine ⟨rfl, rfl, ?_, ?_, ?_, ?_⟩ <;> decide

/-- C7 amended: if `graceful_stop` is true when `_execute_group_init` is
invoked, the call returns before creating any pair, sending any order,
closing any position, logging any event, or modifying `current_group`,
`anchor_price` or `center_price` — but it first records the per-group
tracking (init source, pending retracement, retracement anchor, and the
reset fired-level set) for `group_id`. -/
theorem group_init_graceful_stop_aborts_after_tracking (cfg : Config)
    (brk : Broker) (st : EngineState) (gid : Int) (anchor : ℚ) (bull : Bool)
    (trig : Option Int) (hstop : st.graceful_stop = true) :
    (execute_group_init cfg brk st gid anchor bull trig).pairs = st.pairs ∧
    (execute_group_init cfg brk st gid anchor bull trig).ticket_map = st.ticket_map ∧
    (execute_group_init cfg brk st gid anchor bull trig).orders_sent = st.orders_sent ∧
    (execute_group_init cfg brk st gid anchor bull trig).send_count = st.send_count ∧
    (execute_group_init cfg brk st gid anchor bull trig).closed_tickets = st.closed_tickets ∧
    (execute_group_init cfg brk st gid anchor bull trig).current_group = st.current_group ∧
    (execute_group_init cfg brk st gid anchor bull trig).anchor_price = st.anchor_price ∧
    (execute_group_init cfg brk st gid anchor bull trig).center_price = st.center_price ∧
    (execute_group_init cfg brk st gid anchor bull trig).group_events = st.group_events ∧
    List.lookup gid (execute_group_init cfg brk st gid anchor bull trig).group_init_source
      = some (if bull then Trend.bullish else Trend.bearish) ∧
    List.lookup gid (execute_group_init cfg brk st gid anchor bull trig).group_pending_retracement
      = some (if bull then Trend.bearish else Trend.bullish) ∧
    List.lookup gid (execute_group_init cfg brk st gid anchor bull trig).group_retracement_anchor
      = some anchor ∧
    List.lookup gid (execute_group_init cfg brk st gid anchor bull trig).group_retracement_levels_fired
      = some [] := by
  unfold execute_group_init
  dsimp only
  by_cases h1 : gid = 1 <;>
    simp [h1, hstop, lookup_assocSet_self]

/-- Witness for the amended C7 at a concrete stopped engine. -/
theorem group_init_graceful_stop_aborts_after_tracking_witness :
    (execute_group_init {} brk_stop st_stop 2 500 false none).pairs = st_stop.pairs ∧
    (execute_group_init {} brk_stop st_stop 2 500 false none).ticket_map = st_stop.ticket_map ∧
    (execute_group_init {} brk_stop st_stop 2 500 false none).orders_sent = st_stop.orders_sent ∧
    (execute_group_init {} brk_stop st_stop 2 500 false none).send_count = st_stop.send_count ∧
    (execute_group_init {} brk_stop st_stop 2 500 false none).closed_tickets = st_stop.closed_tickets ∧
    (execute_group_init {} brk_stop st_stop 2 500 false none).current_group = st_stop.current_group ∧
    (execute_group_init {} brk_stop st_stop 2 500 false none).anchor_price = st_stop.anchor_price ∧
    (execute_group_init {} brk_stop st_stop 2 500 false none).center_price = st_stop.center_price ∧
    (execute_group_init {} brk_stop st_stop 2 500 false none).group_events = st_stop.group_events ∧
    List.lookup 2 (execute_group_init {} brk_stop st_stop 2 500 false none).group_init_source
      = some Trend.bearish ∧
    List.lookup 2 (execute_group_init {} brk_stop st_stop 2 500 false none).group_pending_retracement
      = some Trend.bullish ∧
    List.lookup 2 (execute_group_init {} brk_stop st_stop 2 500 false none).group_retracement_anchor
      = some 500 ∧
    List.lookup 2 (execute_group_init {} brk_stop st_stop 2 500 false none).group_retracement_levels_fired
      = some [] :=
  group_init_graceful_stop_aborts_after_tracking {} brk_stop st_stop 2 500 false
    none rfl

end DerivBot
